import Mathlib

/-!
Verification development for the EmailSpamScoreChecker repository.

The frontend (`frontend/src/types.ts`, `frontend/src/App.tsx`,
`frontend/src/hooks/useHistory.ts`) is embedded directly from the source.
The spam-analysis engine itself (the FastAPI backend) is not part of the
available sources; where a claim needs it, a definition is modelled from
the specification and marked as such in its doc comment.
-/

/-- Type `SpamCategory` from `types.ts`: `'SAFE' | 'SUSPICIOUS' | 'LIKELY_SPAM'`. -/
inductive SpamCategory where
  | SAFE
  | SUSPICIOUS
  | LIKELY_SPAM
deriving DecidableEq, Repr

/-- Interface `RuleResult` from `types.ts`. -/
structure RuleResult where
  name : String
  points : Int
  info : String
deriving DecidableEq, Repr

/-- The `headers` field of `AnalysisResponse` in `types.ts`:
`{spf: string, dkim: string, dmarc: string}`. -/
structure HeaderStatuses where
  spf : String
  dkim : String
  dmarc : String
deriving DecidableEq, Repr

/-- Interface `AnalysisResponse` from `types.ts`. -/
structure AnalysisResponse where
  score : Int
  category : SpamCategory
  rules_triggered : List RuleResult
  links : List String
  headers : HeaderStatuses
deriving DecidableEq, Repr

/-- The input-mode flag, `type Mode = 'content' | 'headers'` in `App.tsx`. -/
inductive Mode where
  | content
  | headers
deriving DecidableEq, Repr

/-- Interface `HistoryEntry` from `types.ts`: exactly the fields
`id`, `timestamp`, `category`, `score`, `inputType`. -/
structure HistoryEntry where
  id : String
  timestamp : String
  category : SpamCategory
  score : Int
  inputType : Mode
deriving DecidableEq, Repr

/-- The possible outcomes of the `axios.post` call in `handleAnalyze`
(`App.tsx` lines 162-176): a successful `AnalysisResponse`, an HTTP error
response possibly carrying a `detail` field, or a network-level failure
(no response at all). -/
inductive EngineReply where
  | success (resp : AnalysisResponse)
  | httpError (detail : Option String)
  | networkFailure
deriving DecidableEq, Repr

/-- JavaScript `String.prototype.trim` whitespace set (WhiteSpace and
LineTerminator code points of the ECMAScript spec). -/
def isJsWhitespace (c : Char) : Bool :=
  c = ' ' || c = '\t' || c = '\n' || c = '\x0d' || c = '\x0b' || c = '\x0c' ||
  c = '\u00A0' || c = '\u1680' || ('\u2000' ≤ c && c ≤ '\u200A') ||
  c = '\u2028' || c = '\u2029' || c = '\u202F' || c = '\u205F' ||
  c = '\u3000' || c = '\uFEFF'

/-- JavaScript `raw.trim()` as used in `App.tsx` line 145. -/
def jsTrim (s : String) : String :=
  String.mk (((s.toList.dropWhile isJsWhitespace).reverse.dropWhile isJsWhitespace).reverse)

/-- A character matched by `[\w-]` in the JavaScript regex
`/^[\w-]+:/m` of `App.tsx` line 152 (`\w` is ASCII `[A-Za-z0-9_]`). -/
def isWordOrDash (c : Char) : Bool :=
  (c.isAlpha || c.isDigit) || c = '_' || c = '-'

/-- Line terminators recognised by `^` under the JavaScript `m` flag. -/
def isJsLineTerm (c : Char) : Bool :=
  c = '\n' || c = '\x0d' || c = '\u2028' || c = '\u2029'

/-- Split a character list at every character satisfying `p`; the
resulting segments start exactly at the positions where `^` matches under
the JavaScript `m` flag (the start of the input and the position after
each line terminator). -/
def splitChars (p : Char → Bool) : List Char → List (List Char)
  | [] => [[]]
  | c :: cs =>
      let rest := splitChars p cs
      if p c then [] :: rest
      else
        match rest with
        | [] => [[c]]
        | r :: rs => (c :: r) :: rs

/-- Whether a character list starts with a colon. -/
def startsWithColon : List Char → Bool
  | ':' :: _ => true
  | _ => false

/-- Whether one line (a segment starting at a `^` position) matches
`[\w-]+:` at its start: at least one word-or-dash character followed by a
colon. -/
def lineMatchesHeader (line : List Char) : Bool :=
  decide (line.takeWhile isWordOrDash ≠ []) &&
    startsWithColon (line.dropWhile isWordOrDash)

/-- The test `/^[\w-]+:/m.test(raw)` from `App.tsx` line 152: some line of
the input starts with a `token:` pattern. -/
def hasHeaderLine (raw : String) : Bool :=
  (splitChars isJsLineTerm raw.toList).any lineMatchesHeader

/-- The JSON body posted to `/analyze` by `App.tsx` line 162, as a list of
key/value pairs. The code sends `{ raw }`, i.e. the single key `"raw"`. -/
def requestBody (raw : String) : List (String × String) :=
  [("raw", raw)]

/-- Key lookup in a JSON-object-as-association-list. -/
def lookupKey (body : List (String × String)) (k : String) : Option String :=
  (body.find? fun p => p.1 = k).map (fun p => p.2)

/-- Function `addEntry` from `useHistory.ts` lines 20-24:
`[entry, ...history].slice(0, 20)`, stored back to `localStorage`. -/
def addEntry (entry : HistoryEntry) (history : List HistoryEntry) :
    List HistoryEntry :=
  (entry :: history).take 20

/-- Everything observable about one run of `handleAnalyze`: the error
message shown (if any), the request body sent to the engine (if any), the
result displayed (if any), the history entry added (if any), and the
resulting history list. -/
structure AnalyzeOutcome where
  error : Option String
  request : Option (List (String × String))
  result : Option AnalysisResponse
  newEntry : Option HistoryEntry
  history : List HistoryEntry
deriving DecidableEq, Repr

/-- Function `handleAnalyze` from `App.tsx` lines 142-180 as a pure function of the
raw input, the mode, the engine's reply to the posted request, the fresh id
and timestamp the browser would produce, and the current history list. -/
def handleAnalyze (raw : String) (mode : Mode) (engine : EngineReply)
    (freshId timestamp : String) (history : List HistoryEntry) :
    AnalyzeOutcome :=
  if jsTrim raw = "" then
    { error := some "Input cannot be empty", request := none, result := none,
      newEntry := none, history := history }
  else if mode = Mode.headers ∧ hasHeaderLine raw = false then
    { error := some "Invalid header format", request := none, result := none,
      newEntry := none, history := history }
  else
    match engine with
    | EngineReply.success resp =>
        let entry : HistoryEntry :=
          { id := freshId, timestamp := timestamp,
            category := resp.category, score := resp.score, inputType := mode }
        { error := none, request := some (requestBody raw),
          result := some resp, newEntry := some entry,
          history := addEntry entry history }
    | EngineReply.httpError detail =>
        { error := some (match detail with
            | some d => if d = "" then "Analysis failed" else d
            | none => "Analysis failed"),
          request := some (requestBody raw), result := none,
          newEntry := none, history := history }
    | EngineReply.networkFailure =>
        { error := some "Backend timeout or unreachable",
          request := some (requestBody raw), result := none,
          newEntry := none, history := history }

/-- The history-loading effect of `useHistory.ts` lines 9-18, given the
behaviour of `JSON.parse` (an external browser builtin, passed as a
function) and the stored value: returns the resulting history list and
whether a parse failure was logged. The guard `if (stored)` is a
JavaScript truthiness test, so both an absent value (null) and a
present-but-empty string skip the parse entirely. The initial state is
the empty list; on parse failure the exception is caught, the failure
logged, and the state left empty. -/
def loadHistory (parse : String → Option (List HistoryEntry))
    (stored : Option String) : List HistoryEntry × Bool :=
  match stored with
  | none => ([], false)
  | some s =>
      if s = "" then ([], false)
      else
        match parse s with
        | some entries => (entries, false)
        | none => ([], true)

/-- The `spam1` sample from `App.tsx` line 37. -/
def spam1 : String :=
  "From: winner@mailinator.com\nSubject: WIN BIG NOW!!!\n\nClaim now for free money!!! Visit http://bit.ly/spammy"

/-- The exact output documented in the README and spec §6 for the `spam1`
sample, used as a concrete engine reply in instantiations. -/
def sampleResp : AnalysisResponse :=
  { score := 72, category := SpamCategory.LIKELY_SPAM,
    rules_triggered :=
      [ { name := "SPAM_KEYWORDS", points := 14,
          info := "Found suspicious terms: free money" },
        { name := "EXCESSIVE_PUNCTUATION", points := 15,
          info := "Found 6 exclamation marks" },
        { name := "NO_DKIM", points := 15, info := "Missing DKIM signature" } ],
    links := ["http://bit.ly/spammy"],
    headers := { spf := "fail", dkim := "missing", dmarc := "pass" } }

/-- Modelled from the spec: the engine source (FastAPI backend) is not in
the available sources. Spec §3 ParsedEmail — header mapping with
case-insensitive keys and last-value-wins on duplicates. -/
def lookupHeader (hs : List (String × String)) (key : String) :
    Option String :=
  ((hs.filter fun p => p.1.toLower = key.toLower).getLast?).map (fun p => p.2)

/-- Case-insensitive substring containment used by the modelled header
authenticator. -/
def containsSub (s sub : String) : Bool :=
  decide (1 < (s.toLower.splitOn sub.toLower).length)

/-- Modelled from the spec: the engine source is not in the available
sources. Spec §4.3 — the `spf` status: `pass` if an SPF header/result
indicates pass, `fail` if present and indicates fail/softfail, `missing`
if absent. -/
def spfStatus (hs : List (String × String)) : String :=
  match lookupHeader hs "received-spf" with
  | some v => if containsSub v "pass" then "pass" else "fail"
  | none =>
      match lookupHeader hs "authentication-results" with
      | some v =>
          if containsSub v "spf=pass" then "pass"
          else if containsSub v "spf=fail" || containsSub v "spf=softfail" then "fail"
          else "missing"
      | none => "missing"

/-- Modelled from the spec: the engine source is not in the available
sources. Spec §4.3 — the `dkim` status: `missing` if no DKIM signature
header exists at all, `pass` if present and the authentication result
affirms it, `fail` otherwise (present-but-invalid maps to fail per §3). -/
def dkimStatus (hs : List (String × String)) : String :=
  match lookupHeader hs "dkim-signature" with
  | none => "missing"
  | some _ =>
      match lookupHeader hs "authentication-results" with
      | some v => if containsSub v "dkim=pass" then "pass" else "fail"
      | none => "fail"

/-- Modelled from the spec: the engine source is not in the available
sources. Spec §4.3 — the `dmarc` status: same three-way logic keyed on the
DMARC-specific authentication result. -/
def dmarcStatus (hs : List (String × String)) : String :=
  match lookupHeader hs "authentication-results" with
  | none => "missing"
  | some v =>
      if containsSub v "dmarc=pass" then "pass"
      else if containsSub v "dmarc=fail" then "fail"
      else "missing"

/-- Modelled from the spec: the engine source is not in the available
sources. Spec §4.3 Header Authenticator — derives all three statuses for
an AnalysisResponse. -/
def authenticateHeaders (hs : List (String × String)) : HeaderStatuses :=
  { spf := spfStatus hs, dkim := dkimStatus hs, dmarc := dmarcStatus hs }

/-- Modelled from the spec: the engine source is not in the available
sources. Spec §4.6 Score Aggregator — sums all triggered points and
clamps the result to [0, 100]. -/
def clampScore (pts : Int) : Int :=
  max 0 (min 100 pts)

/-- Modelled from the spec: the engine source is not in the available
sources. Spec §4.6 — category thresholds: below 30 SAFE, 30 to 59
SUSPICIOUS, 60 and above LIKELY_SPAM. -/
def categoryOf (score : Int) : SpamCategory :=
  if score < 30 then SpamCategory.SAFE
  else if score < 60 then SpamCategory.SUSPICIOUS
  else SpamCategory.LIKELY_SPAM

/-- Total points of a list of triggered rules (spec §4.6: aggregation is
the sum of triggered points). -/
def sumPoints (rules : List RuleResult) : Int :=
  rules.foldl (fun a r => a + r.points) 0

/-- Internal inconsistency in the documented example: the three rules the
README/spec list for the spam1 sample carry 14 + 15 + 15 points, so spec
§4.6 aggregation yields score 44 and category SUSPICIOUS — not the
documented score 72 / LIKELY_SPAM. -/
theorem spam1_documented_rules_sum_44 :
    clampScore (sumPoints sampleResp.rules_triggered) = 44 ∧
    categoryOf 44 = SpamCategory.SUSPICIOUS ∧
    sampleResp.score = 72 ∧ sampleResp.category = SpamCategory.LIKELY_SPAM := by
  refine ⟨by decide, by decide, rfl, rfl⟩

theorem spfStatus_total (hs : List (String × String)) :
    spfStatus hs = "pass" ∨ spfStatus hs = "fail" ∨ spfStatus hs = "missing" := by
  unfold spfStatus
  cases lookupHeader hs "received-spf" with
  | none =>
      cases lookupHeader hs "authentication-results" with
      | none => simp
      | some v =>
          by_cases h1 : containsSub v "spf=pass" = true
          · simp [h1]
          · by_cases h2 : (containsSub v "spf=fail" || containsSub v "spf=softfail") = true
            · simp [h1, h2]
            · simp [h1, h2]
  | some v =>
      by_cases h : containsSub v "pass" = true
      · simp [h]
      · simp [h]

theorem dkimStatus_total (hs : List (String × String)) :
    dkimStatus hs = "pass" ∨ dkimStatus hs = "fail" ∨ dkimStatus hs = "missing" := by
  unfold dkimStatus
  cases lookupHeader hs "dkim-signature" with
  | none => simp
  | some v =>
      cases lookupHeader hs "authentication-results" with
      | none => simp
      | some w =>
          by_cases h : containsSub w "dkim=pass" = true
          · simp [h]
          · simp [h]

theorem dmarcStatus_total (hs : List (String × String)) :
    dmarcStatus hs = "pass" ∨ dmarcStatus hs = "fail" ∨ dmarcStatus hs = "missing" := by
  unfold dmarcStatus
  cases lookupHeader hs "authentication-results" with
  | none => simp
  | some v =>
      by_cases h1 : containsSub v "dmarc=pass" = true
      · simp [h1]
      · by_cases h2 : containsSub v "dmarc=fail" = true
        · simp [h1, h2]
        · simp [h1, h2]

/-- C6: the headers field of a response produced by the (spec-modelled)
header authenticator always contains all three keys spf, dkim and dmarc —
they are fields of the structure — and each resolves to exactly one of
pass, fail or missing. -/
theorem c6_header_totality (hs : List (String × String)) :
    ((authenticateHeaders hs).spf = "pass" ∨ (authenticateHeaders hs).spf = "fail" ∨
      (authenticateHeaders hs).spf = "missing") ∧
    ((authenticateHeaders hs).dkim = "pass" ∨ (authenticateHeaders hs).dkim = "fail" ∨
      (authenticateHeaders hs).dkim = "missing") ∧
    ((authenticateHeaders hs).dmarc = "pass" ∨ (authenticateHeaders hs).dmarc = "fail" ∨
      (authenticateHeaders hs).dmarc = "missing") :=
  ⟨spfStatus_total hs, dkimStatus_total hs, dmarcStatus_total hs⟩

/-- C9: after addEntry, the history has at most 20 entries, the new entry
is first, and the previously stored entries follow in their prior order
(truncated to the first 19). -/
theorem c9_history_bounded_newest_first (e : HistoryEntry)
    (h : List HistoryEntry) :
    (addEntry e h).length ≤ 20 ∧ (addEntry e h).head? = some e ∧
    (addEntry e h).tail = h.take 19 := by
  have ht : addEntry e h = e :: h.take 19 := rfl
  refine ⟨?_, ?_, ?_⟩
  · rw [ht]
    simp only [List.length_cons, List.length_take]
    omega
  · rw [ht]
    rfl
  · rw [ht]
    rfl

/-- C10 counterexample: the stored value "" is present and not parsable
JSON (JSON.parse throws on the empty string, modelled by a parse returning
none on every input), yet the truthiness guard `if (stored)` skips the
parse entirely: nothing is logged, so the outcome is not the
(empty history, failure logged) pair the claim asserts. -/
theorem c10_counterexample :
    (fun _ => (none : Option (List HistoryEntry))) "" = none ∧
    loadHistory (fun _ => none) (some "") = ([], false) ∧
    loadHistory (fun _ => none) (some "") ≠ ([], true) := by
  refine ⟨rfl, rfl, by decide⟩

/-- C10 (amended): when the stored history value is present, non-empty and
not parsable JSON, loading does not throw: the failure is logged and the
history list stays empty. (An empty stored string is falsy, so the code
skips the parse and logs nothing.) -/
theorem c10_corrupt_history_resets
    (parse : String → Option (List HistoryEntry)) (s : String)
    (hp : parse s = none) (hs : s ≠ "") :
    loadHistory parse (some s) = ([], true) := by
  simp [loadHistory, hp, hs]

/-- Witness for C10's amended theorem at a concrete non-empty unparsable
stored value. -/
theorem c10_corrupt_history_resets_witness :
    loadHistory (fun _ => none) (some "not-json") = ([], true) :=
  c10_corrupt_history_resets (fun _ => none) "not-json" rfl (by decide)

/-- C1 counterexample: analyzing the spam1 sample in content mode posts a
request whose body is exactly the singleton object with key "raw"; looking
up "mode" in it yields nothing, so no mode field is sent to the engine. -/
theorem c1_counterexample :
    (handleAnalyze spam1 Mode.content (EngineReply.success sampleResp)
        "id0" "t0" []).request = some (requestBody spam1) ∧
    lookupKey (requestBody spam1) "mode" = none ∧
    lookupKey (requestBody spam1) "raw" = some spam1 := by
  refine ⟨by decide, by decide, by decide⟩

/-- C1 (amended): whenever handleAnalyze posts a request to the /analyze
endpoint, the body contains the raw string under the key "raw" and no
"mode" field at all. -/
theorem c1_request_raw_only (raw : String) (mode : Mode)
    (engine : EngineReply) (i t : String) (h : List HistoryEntry)
    (body : List (String × String))
    (hreq : (handleAnalyze raw mode engine i t h).request = some body) :
    lookupKey body "raw" = some raw ∧ lookupKey body "mode" = none := by
  have hb : body = requestBody raw := by
    unfold handleAnalyze at hreq
    split at hreq
    · simp at hreq
    · split at hreq
      · simp at hreq
      · cases engine <;> simp_all
  subst hb
  constructor
  · simp [lookupKey, requestBody, List.find?]
  · simp [lookupKey, requestBody, List.find?]

/-- Witness for C1's amended theorem at the spam1 sample. -/
theorem c1_request_raw_only_witness :
    lookupKey (requestBody spam1) "raw" = some spam1 ∧
    lookupKey (requestBody spam1) "mode" = none :=
  c1_request_raw_only spam1 Mode.content (EngineReply.success sampleResp)
    "id0" "t0" [] (requestBody spam1) (by decide)

/-- C2: on input that is empty or all whitespace, handleAnalyze shows the
validation error message, sends no request, produces no response and adds
no history entry. -/
theorem c2_empty_input_validation (raw : String) (mode : Mode)
    (engine : EngineReply) (i t : String) (h : List HistoryEntry)
    (hw : raw.toList.all isJsWhitespace = true) :
    handleAnalyze raw mode engine i t h =
      { error := some "Input cannot be empty", request := none,
        result := none, newEntry := none, history := h } := by
  have ht : jsTrim raw = "" := by
    unfold jsTrim
    have hnil : raw.toList.dropWhile isJsWhitespace = [] := by
      rw [List.dropWhile_eq_nil_iff]
      intro x hx
      exact List.all_eq_true.mp hw x hx
    rw [hnil]
    rfl
  simp [handleAnalyze, ht]

/-- Witness for C2 at a concrete whitespace-only input. -/
theorem c2_empty_input_validation_witness :
    (" \n\t ").toList.all isJsWhitespace = true ∧
    handleAnalyze " \n\t " Mode.content EngineReply.networkFailure
        "id0" "t0" [] =
      { error := some "Input cannot be empty", request := none,
        result := none, newEntry := none, history := [] } :=
  ⟨by decide,
    c2_empty_input_validation " \n\t " Mode.content EngineReply.networkFailure
      "id0" "t0" [] (by decide)⟩

/-- C3: in headers mode, when no line of the input matches the token-colon
pattern, handleAnalyze reports a validation error before any engine
involvement: an error is shown, no request is sent, no result is produced
and no history entry is added. -/
theorem c3_headers_without_header_line (raw : String) (engine : EngineReply)
    (i t : String) (h : List HistoryEntry)
    (hh : hasHeaderLine raw = false) :
    ((handleAnalyze raw Mode.headers engine i t h).error).isSome = true ∧
    (handleAnalyze raw Mode.headers engine i t h).request = none ∧
    (handleAnalyze raw Mode.headers engine i t h).result = none ∧
    (handleAnalyze raw Mode.headers engine i t h).newEntry = none ∧
    (handleAnalyze raw Mode.headers engine i t h).history = h := by
  by_cases he : jsTrim raw = ""
  · simp [handleAnalyze, he]
  · simp [handleAnalyze, he, hh]

/-- Witness for C3 at a concrete body-only input with no header line. -/
theorem c3_headers_without_header_line_witness :
    hasHeaderLine "just a plain body sentence" = false ∧
    ((handleAnalyze "just a plain body sentence" Mode.headers
        EngineReply.networkFailure "id0" "t0" []).error).isSome = true ∧
    (handleAnalyze "just a plain body sentence" Mode.headers
        EngineReply.networkFailure "id0" "t0" []).request = none :=
  ⟨by decide,
    (c3_headers_without_header_line "just a plain body sentence"
      EngineReply.networkFailure "id0" "t0" [] (by decide)).1,
    (c3_headers_without_header_line "just a plain body sentence"
      EngineReply.networkFailure "id0" "t0" [] (by decide)).2.1⟩

/-- C7 counterexample: the engine responds with a detail field that is
present but equal to the empty string; the UI then shows the generic
"Analysis failed" message, not the detail, although the detail field is
present. -/
theorem c7_counterexample :
    (handleAnalyze spam1 Mode.content (EngineReply.httpError (some ""))
        "id0" "t0" []).error = some "Analysis failed" ∧
    ("" : String) ≠ "Analysis failed" := by
  refine ⟨by decide, by decide⟩

/-- C7 (amended): on an engine error response the UI shows the detail
message directly whenever the detail field is present and non-empty; the
generic "Analysis failed" message is shown when the detail field is absent
or empty, and the unreachable message when no response arrived at all. -/
theorem c7_error_display (raw : String) (mode : Mode) (i t : String)
    (h : List HistoryEntry)
    (hne : jsTrim raw ≠ "")
    (hhdr : ¬(mode = Mode.headers ∧ hasHeaderLine raw = false)) :
    (∀ d : String, d ≠ "" →
      (handleAnalyze raw mode (EngineReply.httpError (some d)) i t h).error
        = some d) ∧
    (handleAnalyze raw mode (EngineReply.httpError (some "")) i t h).error
      = some "Analysis failed" ∧
    (handleAnalyze raw mode (EngineReply.httpError none) i t h).error
      = some "Analysis failed" ∧
    (handleAnalyze raw mode EngineReply.networkFailure i t h).error
      = some "Backend timeout or unreachable" := by
  refine ⟨?_, ?_, ?_, ?_⟩
  · intro d hd
    simp [handleAnalyze, hne, hhdr, hd]
  · simp [handleAnalyze, hne, hhdr]
  · simp [handleAnalyze, hne, hhdr]
  · simp [handleAnalyze, hne, hhdr]

/-- Witness for C7's amended theorem at a concrete non-empty detail. -/
theorem c7_error_display_witness :
    (handleAnalyze spam1 Mode.content (EngineReply.httpError (some "boom"))
        "id0" "t0" []).error = some "boom" :=
  (c7_error_display spam1 Mode.content "id0" "t0" [] (by decide)
      (by decide)).1 "boom" (by decide)

/-- C8: after a successful analysis the recorded history entry is exactly
the five-field record whose category and score are copied from the
returned response and whose input type is the mode used, and the client's
addEntry stores it at the front of the local history. -/
theorem c8_history_entry_fields (raw : String) (mode : Mode)
    (resp : AnalysisResponse) (i t : String) (h : List HistoryEntry)
    (hne : jsTrim raw ≠ "")
    (hhdr : ¬(mode = Mode.headers ∧ hasHeaderLine raw = false)) :
    (handleAnalyze raw mode (EngineReply.success resp) i t h).newEntry =
      some { id := i, timestamp := t, category := resp.category,
             score := resp.score, inputType := mode } ∧
    (handleAnalyze raw mode (EngineReply.success resp) i t h).history =
      addEntry { id := i, timestamp := t, category := resp.category,
                 score := resp.score, inputType := mode } h := by
  constructor
  · simp [handleAnalyze, hne, hhdr]
  · simp [handleAnalyze, hne, hhdr]

/-- Witness for C8 at the spam1 sample and the documented response. -/
theorem c8_history_entry_fields_witness :
    (handleAnalyze spam1 Mode.content (EngineReply.success sampleResp)
        "id0" "t0" []).newEntry =
      some { id := "id0", timestamp := "t0",
             category := sampleResp.category, score := sampleResp.score,
             inputType := Mode.content } :=
  (c8_history_entry_fields spam1 Mode.content sampleResp "id0" "t0" []
      (by decide) (by decide)).1
